import Mathlib

/-!
Shallow embedding of `GStreamerPlayer.cpp` (the Player Adapter of the
QtGStreamerHUDAppVR repository).

The adapter is a single-threaded Qt object.  Its member fields become a
`PlayerState` record; every externally visible effect (signal emission,
request posted to the external media framework) becomes an entry of an
emission trace.  Qt signal emission is synchronous: a connected slot runs
at the point of `emit` and can read the adapter's properties, so each
trace entry carries a snapshot of the observable triple
`(playing, paused, stopped)` as it stood at the moment of emission.

The external media framework (QGst) is opaque: `parseLaunch` (composed
with the `dynamicCast<QGst::Pipeline>`, so `none` covers both a parse
failure and a non-pipeline result) and `findUnlinkedPad(QGst::PadSrc)`
are supplied as an oracle record `Emf`.  Pipeline objects and pads are
identified by `Nat` handles; a null pointer is `Option.none`.

`toggleFullScreen` touches only the UI toolkit and is outside every
claim; it is not modelled.
-/

/-- The QGst::State values that can appear in a StateChanged message. -/
inductive GstState where
  | voidPending
  | null
  | ready
  | paused
  | playing
deriving DecidableEq, Repr

/-- The observable triple (m_playing, m_paused, m_stopped) as readable
through the Qt properties. -/
structure Triple where
  playing : Bool
  paused : Bool
  stopped : Bool
deriving DecidableEq, Repr

/-- One externally visible effect of the adapter. -/
inductive Event where
  /-- emit playingChanged(b) -/
  | playingChanged (b : Bool)
  /-- emit pausedChanged(b) -/
  | pausedChanged (b : Bool)
  /-- emit stoppedChanged(b) -/
  | stoppedChanged (b : Bool)
  /-- emit messageBox(msg) -/
  | messageBox (msg : String)
  /-- m_pipeline->setState(st) : asynchronous request to the framework -/
  | setState (st : GstState)
  /-- m_pipeline->remove(m_videoSink) -/
  | removeSink
  /-- src->parentElement()->setProperty("caps", ...) -/
  | setCaps
  /-- m_videoSink->setProperty("sync", b) -/
  | setSinkSync (b : Bool)
  /-- m_pipeline->add(m_videoSink) -/
  | addSink
  /-- src->parentElement()->link(m_videoSink) -/
  | linkSink
  /-- bus->addSignalWatch() plus the QGlib::connect of onBusMessage -/
  | busWatch
  /-- m_pipeline->sendEvent(eos) : the end-of-stream event is posted -/
  | sendEvent
  /-- qCritical() << error -/
  | logCritical (err : String)
deriving DecidableEq, Repr

/-- A trace entry: the effect together with the snapshot of the
observable triple at the moment it happens. -/
abbrev Emission := Event × Triple

/-- The member fields of GStreamerPlayer.  The two QTimer members are
single-shot; only their armed flag is observable to the claims. -/
structure PlayerState where
  playing : Bool
  paused : Bool
  stopped : Bool
  currentPipelineString : String
  pipelineString : String
  pipeline : Option Nat
  videoSink : Option Nat
  stopTimerActive : Bool
  playTimerActive : Bool
deriving DecidableEq, Repr

/-- The observable triple of a state. -/
def PlayerState.triple (s : PlayerState) : Triple :=
  ⟨s.playing, s.paused, s.stopped⟩

/-- Oracle for the opaque external media framework. -/
structure Emf where
  /-- QGst::ElementFactory::parseLaunch(desc).dynamicCast(Pipeline);
  `none` covers both a parse failure and a non-pipeline result. -/
  parseLaunch : String → Option Nat
  /-- pipeline->findUnlinkedPad(QGst::PadSrc) on the given pipeline. -/
  findUnlinkedSrcPad : Nat → Option Nat

/-- The constructor GStreamerPlayer::GStreamerPlayer: playing=false,
stopped=true, paused=false, both description strings empty, no pipeline,
no sink yet, both single-shot timers idle. -/
def initState : PlayerState :=
  { playing := false
    paused := false
    stopped := true
    currentPipelineString := ""
    pipelineString := ""
    pipeline := none
    videoSink := none
    stopTimerActive := false
    playTimerActive := false }

/-- GStreamerPlayer::setVideoSink: m_videoSink = sink; (unconditional). -/
def setVideoSink (sink : Nat) (s : PlayerState) : PlayerState × List Emission :=
  ({ s with videoSink := some sink }, [])

/-- GStreamerPlayer::stop: if (!m_pipeline.isNull()) setState(StateNull).
No member field changes; the request is asynchronous. -/
def stop (s : PlayerState) : PlayerState × List Emission :=
  if s.pipeline.isSome then (s, [(Event.setState GstState.null, s.triple)])
  else (s, [])

/-- GStreamerPlayer::pause: if (!m_pipeline.isNull()) setState(StatePaused). -/
def pause (s : PlayerState) : PlayerState × List Emission :=
  if s.pipeline.isSome then (s, [(Event.setState GstState.paused, s.triple)])
  else (s, [])

/-- GStreamerPlayer::initialize, lines 119-166 of the source.  `stop` does
not modify the member fields (it only posts a request), so the state after
the `stop();` call in line 125 is written `s0` directly while its
emissions are prepended to the trace. -/
def initializePipeline (emf : Emf) (s : PlayerState) : PlayerState × List Emission :=
  if s.pipelineString ≠ "" ∧ s.pipelineString ≠ s.currentPipelineString then
    -- m_currentPipelineString = "";
    let s0 := { s with currentPipelineString := "" }
    -- stop();
    let tr0 := (stop s0).2
    -- if (!m_pipeline.isNull()) { m_pipeline->remove(m_videoSink); m_pipeline.clear(); }
    let cleared : PlayerState × List Emission :=
      if s0.pipeline.isSome then
        ({ s0 with pipeline := none }, [(Event.removeSink, s0.triple)])
      else (s0, [])
    let s1 := cleared.1
    let tr1 := cleared.2
    -- m_pipeline = QGst::ElementFactory::parseLaunch(pData).dynamicCast<QGst::Pipeline>();
    match emf.parseLaunch s1.pipelineString with
    | some p =>
      -- if (!m_pipeline.isNull())
      let s2 := { s1 with pipeline := some p }
      match emf.findUnlinkedSrcPad p with
      | some _ =>
        -- caps, sink sync, add, link, bus watch, commit the description
        ({ s2 with currentPipelineString := s2.pipelineString },
          tr0 ++ tr1 ++
            [(Event.setCaps, s2.triple), (Event.setSinkSync false, s2.triple),
             (Event.addSink, s2.triple), (Event.linkSink, s2.triple),
             (Event.busWatch, s2.triple)])
      | none =>
        -- emit messageBox(msg); m_pipeline.clear();
        ({ s2 with pipeline := none },
          tr0 ++ tr1 ++
            [(Event.messageBox
                ("The Pipeline command string has no unlinked video source element, cannot link pipeline. String = "
                  ++ s2.pipelineString), s2.triple)])
    | none =>
      -- emit messageBox("Failed to create the pipeline '<desc>'!");
      ({ s1 with pipeline := none },
        tr0 ++ tr1 ++
          [(Event.messageBox
              ("Failed to create the pipeline \x27" ++ s1.pipelineString ++ "\x27!"),
            s1.triple)])
  else (s, [])

/-- GStreamerPlayer::play: initialize(); then, if a pipeline exists,
request StatePlaying and return true, otherwise return false. -/
def play (emf : Emf) (s : PlayerState) : PlayerState × List Emission × Bool :=
  let r := initializePipeline emf s
  if r.1.pipeline.isSome then
    (r.1, r.2 ++ [(Event.setState GstState.playing, r.1.triple)], true)
  else (r.1, r.2, false)

/-- GStreamerPlayer::handlePipelineStateChange: the switch on
scm->newState().  Each member assignment is immediately followed by the
emission of its own change signal; the switch has no default case, so
Ready and VoidPending fall through with no effect. -/
def handlePipelineStateChange (newState : GstState) (s : PlayerState) :
    PlayerState × List Emission :=
  match newState with
  | GstState.playing =>
    let s1 := { s with playing := true }
    let e1 : Emission := (Event.playingChanged s1.playing, s1.triple)
    let s2 := { s1 with paused := false }
    let e2 : Emission := (Event.pausedChanged s2.paused, s2.triple)
    let s3 := { s2 with stopped := false }
    let e3 : Emission := (Event.stoppedChanged s3.stopped, s3.triple)
    (s3, [e1, e2, e3])
  | GstState.paused =>
    let s1 := { s with playing := false }
    let e1 : Emission := (Event.playingChanged s1.playing, s1.triple)
    let s2 := { s1 with paused := true }
    let e2 : Emission := (Event.pausedChanged s2.paused, s2.triple)
    let s3 := { s2 with stopped := false }
    let e3 : Emission := (Event.stoppedChanged s3.stopped, s3.triple)
    (s3, [e1, e2, e3])
  | GstState.null =>
    let s1 := { s with playing := false }
    let e1 : Emission := (Event.playingChanged s1.playing, s1.triple)
    let s2 := { s1 with paused := false }
    let e2 : Emission := (Event.pausedChanged s2.paused, s2.triple)
    let s3 := { s2 with stopped := true }
    let e3 : Emission := (Event.stoppedChanged s3.stopped, s3.triple)
    (s3, [e1, e2, e3])
  | _ => (s, [])

/-- A message delivered by the pipeline bus.  `source` is the emitting
object's handle, compared against the adapter's pipeline handle. -/
inductive Message where
  | eos
  | error (err : String)
  | stateChanged (source : Nat) (newState : GstState)
  | other
deriving DecidableEq, Repr

/-- GStreamerPlayer::onBusMessage: EOS stops, Error logs then stops,
StateChanged from the held pipeline runs the publisher, everything else
is ignored. -/
def onBusMessage (msg : Message) (s : PlayerState) : PlayerState × List Emission :=
  match msg with
  | Message.eos => stop s
  | Message.error err =>
    ((stop s).1, (Event.logCritical err, s.triple) :: (stop s).2)
  | Message.stateChanged source newState =>
    match s.pipeline with
    | some p =>
      if source = p then handlePipelineStateChange newState s else (s, [])
    | none => (s, [])
  | Message.other => (s, [])

/-- GStreamerPlayer::sendEOS: the EosEvent::create() call is a pure
allocation with no observable effect; the event is posted only when a
pipeline is held. -/
def sendEOS (s : PlayerState) : PlayerState × List Emission :=
  if s.pipeline.isSome then (s, [(Event.sendEvent, s.triple)])
  else (s, [])

/-- GStreamerPlayer::onStopTimer: disarm the timer, flip the triple to
stopped (each field followed by its own emission, order stopped, paused,
playing), then call stop(). -/
def onStopTimer (s : PlayerState) : PlayerState × List Emission :=
  let s0 := { s with stopTimerActive := false }
  let s1 := { s0 with stopped := true }
  let e1 : Emission := (Event.stoppedChanged s1.stopped, s1.triple)
  let s2 := { s1 with paused := false }
  let e2 : Emission := (Event.pausedChanged s2.paused, s2.triple)
  let s3 := { s2 with playing := false }
  let e3 : Emission := (Event.playingChanged s3.playing, s3.triple)
  ((stop s3).1, [e1, e2, e3] ++ (stop s3).2)

/-- GStreamerPlayer::onPlayTimer: disarm the timer, flip the triple to
playing (each field followed by its own emission, order playing, paused,
stopped), then call play(). -/
def onPlayTimer (emf : Emf) (s : PlayerState) : PlayerState × List Emission :=
  let s0 := { s with playTimerActive := false }
  let s1 := { s0 with playing := true }
  let e1 : Emission := (Event.playingChanged s1.playing, s1.triple)
  let s2 := { s1 with paused := false }
  let e2 : Emission := (Event.pausedChanged s2.paused, s2.triple)
  let s3 := { s2 with stopped := false }
  let e3 : Emission := (Event.stoppedChanged s3.stopped, s3.triple)
  let r := play emf s3
  (r.1, [e1, e2, e3] ++ r.2.1)

/-- True exactly when one of the three observable booleans is set. -/
def exactlyOneTrue (t : Triple) : Bool :=
  (cond t.playing 1 0) + (cond t.paused 1 0) + (cond t.stopped 1 0) == 1

/-- Whether an event is one of the three property change notifications. -/
def Event.isNotification : Event → Bool
  | Event.playingChanged _ => true
  | Event.pausedChanged _ => true
  | Event.stoppedChanged _ => true
  | _ => false

/-- A state holding a live pipeline (handle 0) and a sink (handle 1). -/
def liveState : PlayerState :=
  { initState with pipeline := some 0, videoSink := some 1, playing := true, stopped := false }

/-- A settled paused state: triple (false, true, false). -/
def pausedState : PlayerState :=
  { initState with paused := true, stopped := false }

theorem stop_fst (s : PlayerState) : (stop s).1 = s := by
  unfold stop; split <;> rfl

/-- C1: a StateChanged bus message from the held pipeline publishes
(true,false,false) for Playing, (false,true,false) for Paused and
(false,false,true) for Null, and emits all three change notifications
unconditionally (the starting triple `s` is arbitrary, so repeated values
are re-notified). -/
theorem busStateChange_publishes_triples (s : PlayerState) (p : Nat)
    (hp : s.pipeline = some p) :
    ((onBusMessage (Message.stateChanged p GstState.playing) s).1.triple = ⟨true, false, false⟩ ∧
      (onBusMessage (Message.stateChanged p GstState.playing) s).2.map Prod.fst =
        [Event.playingChanged true, Event.pausedChanged false, Event.stoppedChanged false]) ∧
    ((onBusMessage (Message.stateChanged p GstState.paused) s).1.triple = ⟨false, true, false⟩ ∧
      (onBusMessage (Message.stateChanged p GstState.paused) s).2.map Prod.fst =
        [Event.playingChanged false, Event.pausedChanged true, Event.stoppedChanged false]) ∧
    ((onBusMessage (Message.stateChanged p GstState.null) s).1.triple = ⟨false, false, true⟩ ∧
      (onBusMessage (Message.stateChanged p GstState.null) s).2.map Prod.fst =
        [Event.playingChanged false, Event.pausedChanged false, Event.stoppedChanged true]) := by
  simp [onBusMessage, hp, handlePipelineStateChange, PlayerState.triple]

/-- C1 witness: the hypothesis holds at liveState with pipeline handle 0. -/
theorem busStateChange_publishes_triples_witness :
    liveState.pipeline = some 0 ∧
    (onBusMessage (Message.stateChanged 0 GstState.playing) liveState).1.triple =
      ⟨true, false, false⟩ :=
  ⟨rfl, (busStateChange_publishes_triples liveState 0 rfl).1.1⟩

/-- C2: after handling a StateChanged with new state Playing, Paused or
Null, exactly one of (playing, paused, stopped) is true, and the
freshly constructed adapter also satisfies the exactly-one invariant. -/
theorem exactlyOne_after_transition (s : PlayerState) :
    exactlyOneTrue (handlePipelineStateChange GstState.playing s).1.triple = true ∧
    exactlyOneTrue (handlePipelineStateChange GstState.paused s).1.triple = true ∧
    exactlyOneTrue (handlePipelineStateChange GstState.null s).1.triple = true ∧
    exactlyOneTrue initState.triple = true :=
  ⟨rfl, rfl, rfl, rfl⟩

/-- C3 counterexample: dispatching Playing from the settled paused state,
the observer of the first emitted notification (playingChanged) sees the
triple (true, true, false), not the complete new triple (true, false,
false): the paused and stopped fields are still at their old values. -/
theorem first_notification_sees_partial_triple :
    ((handlePipelineStateChange GstState.playing pausedState).2.map Prod.snd).head? =
      some ⟨true, true, false⟩ ∧
    (handlePipelineStateChange GstState.playing pausedState).1.triple = ⟨true, false, false⟩ ∧
    ((handlePipelineStateChange GstState.playing pausedState).2.map Prod.snd).head? ≠
      some (handlePipelineStateChange GstState.playing pausedState).1.triple := by
  refine ⟨rfl, rfl, ?_⟩
  decide

/-- C3 amended: within a dispatch the fields are updated one at a time in
the order playing, paused, stopped, each immediately before its own
notification; the observer of the k-th notification sees the first k
fields new and the rest old, and only the observer of the last
notification sees the complete new triple. -/
theorem notification_snapshots_in_order (s : PlayerState) :
    (handlePipelineStateChange GstState.playing s).2.map Prod.snd =
      [⟨true, s.paused, s.stopped⟩, ⟨true, false, s.stopped⟩, ⟨true, false, false⟩] ∧
    (handlePipelineStateChange GstState.paused s).2.map Prod.snd =
      [⟨false, s.paused, s.stopped⟩, ⟨false, true, s.stopped⟩, ⟨false, true, false⟩] ∧
    (handlePipelineStateChange GstState.null s).2.map Prod.snd =
      [⟨false, s.paused, s.stopped⟩, ⟨false, false, s.stopped⟩, ⟨false, false, true⟩] ∧
    ((handlePipelineStateChange GstState.playing s).2.map Prod.snd).getLast? =
      some (handlePipelineStateChange GstState.playing s).1.triple :=
  ⟨rfl, rfl, rfl, rfl⟩

/-- C4: play() runs the reconciliation step first, returns true exactly
when a pipeline exists after it, leaves the state as the reconciliation
left it, and appends the StatePlaying request exactly when a pipeline
exists. -/
theorem play_returns_iff_pipeline (emf : Emf) (s : PlayerState) :
    (play emf s).2.2 = (initializePipeline emf s).1.pipeline.isSome ∧
    (play emf s).1 = (initializePipeline emf s).1 ∧
    (play emf s).2.1 =
      (initializePipeline emf s).2 ++
        (if (initializePipeline emf s).1.pipeline.isSome then
           [(Event.setState GstState.playing, (initializePipeline emf s).1.triple)]
         else []) := by
  rcases h : (initializePipeline emf s).1.pipeline with _ | p <;> simp [play, h]

/-- An oracle on which every parse fails. -/
def emfNone : Emf :=
  { parseLaunch := fun _ => none, findUnlinkedSrcPad := fun _ => none }

/-- An oracle on which parsing yields pipeline 7 with no unlinked source pad. -/
def emfNoPad : Emf :=
  { parseLaunch := fun _ => some 7, findUnlinkedSrcPad := fun _ => none }

/-- A fresh adapter with a desired description set. -/
def descState : PlayerState :=
  { initState with pipelineString := "videotestsrc" }

/-- C5: with an empty description or one equal to CurrentDescription the
reconciliation is a complete no-op (same state, no emissions), and play()
with an empty description and no pipeline returns false leaving the state
unchanged with no emissions. -/
theorem no_rebuild_when_empty_or_unchanged (emf : Emf) (s : PlayerState)
    (h : s.pipelineString = "" ∨ s.pipelineString = s.currentPipelineString) :
    initializePipeline emf s = (s, []) ∧
    (s.pipelineString = "" → s.pipeline = none → play emf s = (s, [], false)) := by
  have hcond : ¬(s.pipelineString ≠ "" ∧ s.pipelineString ≠ s.currentPipelineString) := by
    rcases h with h | h
    · exact fun hc => hc.1 h
    · exact fun hc => hc.2 h
  have hinit : initializePipeline emf s = (s, []) := by
    unfold initializePipeline
    rw [if_neg hcond]
  refine ⟨hinit, fun _ hp => ?_⟩
  simp [play, hinit, hp]

/-- C5 witness: the fresh adapter has an empty description and no
pipeline, and play() on it is a silent no-op returning false. -/
theorem no_rebuild_when_empty_or_unchanged_witness :
    initState.pipelineString = "" ∧
    initializePipeline emfNone initState = (initState, []) ∧
    play emfNone initState = (initState, [], false) :=
  ⟨rfl, (no_rebuild_when_empty_or_unchanged emfNone initState (Or.inl rfl)).1,
    (no_rebuild_when_empty_or_unchanged emfNone initState (Or.inl rfl)).2 rfl rfl⟩

/-- C6: when a rebuild is attempted and construction fails (parse failure
or no unlinked source pad), the matching messageBox is emitted, no
pipeline is kept, CurrentDescription stays empty and the desired
description is untouched, so the next play() retries it. -/
theorem failed_rebuild_surfaces_error (emf : Emf) (s : PlayerState)
    (hne : s.pipelineString ≠ "") (hdiff : s.pipelineString ≠ s.currentPipelineString) :
    (emf.parseLaunch s.pipelineString = none →
      (initializePipeline emf s).1.pipeline = none ∧
      (initializePipeline emf s).1.currentPipelineString = "" ∧
      (initializePipeline emf s).1.pipelineString = s.pipelineString ∧
      Event.messageBox ("Failed to create the pipeline \x27" ++ s.pipelineString ++ "\x27!")
        ∈ (initializePipeline emf s).2.map Prod.fst) ∧
    (∀ p, emf.parseLaunch s.pipelineString = some p →
      emf.findUnlinkedSrcPad p = none →
      (initializePipeline emf s).1.pipeline = none ∧
      (initializePipeline emf s).1.currentPipelineString = "" ∧
      (initializePipeline emf s).1.pipelineString = s.pipelineString ∧
      Event.messageBox
          ("The Pipeline command string has no unlinked video source element, cannot link pipeline. String = "
            ++ s.pipelineString)
        ∈ (initializePipeline emf s).2.map Prod.fst) := by
  constructor
  · intro hparse
    rcases hpipe : s.pipeline with _ | q <;>
      simp [initializePipeline, stop, hne, hdiff, hpipe, hparse]
  · intro p hparse hpad
    rcases hpipe : s.pipeline with _ | q <;>
      simp [initializePipeline, stop, hne, hdiff, hpipe, hparse, hpad]

/-- C6 witness: on the fresh adapter with description "videotestsrc",
both failure modes leave no pipeline. -/
theorem failed_rebuild_surfaces_error_witness :
    descState.pipelineString ≠ "" ∧
    descState.pipelineString ≠ descState.currentPipelineString ∧
    (initializePipeline emfNone descState).1.pipeline = none ∧
    (initializePipeline emfNoPad descState).1.pipeline = none :=
  ⟨by decide, by decide,
    ((failed_rebuild_surfaces_error emfNone descState (by decide) (by decide)).1 rfl).1,
    ((failed_rebuild_surfaces_error emfNoPad descState (by decide) (by decide)).2 7 rfl rfl).1⟩

theorem initializePipeline_no_notification (emf : Emf) (s : PlayerState) :
    ∀ em ∈ (initializePipeline emf s).2, em.1.isNotification = false := by
  by_cases hcond : s.pipelineString ≠ "" ∧ s.pipelineString ≠ s.currentPipelineString
  · rcases hpipe : s.pipeline with _ | q
    · rcases hparse : emf.parseLaunch s.pipelineString with _ | p
      · simp [initializePipeline, stop, hcond, hpipe, hparse, Event.isNotification]
      · rcases hpad : emf.findUnlinkedSrcPad p with _ | d
        · simp [initializePipeline, stop, hcond, hpipe, hparse, hpad, Event.isNotification]
        · simp [initializePipeline, stop, hcond, hpipe, hparse, hpad, Event.isNotification]
    · rcases hparse : emf.parseLaunch s.pipelineString with _ | p
      · simp [initializePipeline, stop, hcond, hpipe, hparse, Event.isNotification]
      · rcases hpad : emf.findUnlinkedSrcPad p with _ | d
        · simp [initializePipeline, stop, hcond, hpipe, hparse, hpad, Event.isNotification]
        · simp [initializePipeline, stop, hcond, hpipe, hparse, hpad, Event.isNotification]
  · simp [initializePipeline, hcond]

theorem play_no_notification (emf : Emf) (s : PlayerState) :
    ∀ em ∈ (play emf s).2.1, em.1.isNotification = false := by
  intro em hm
  rcases hpipe : (initializePipeline emf s).1.pipeline with _ | p
  · simp [play, hpipe] at hm
    exact initializePipeline_no_notification emf s em hm
  · simp [play, hpipe] at hm
    rcases hm with hm | hm
    · exact initializePipeline_no_notification emf s em hm
    · simp [hm, Event.isNotification]

/-- The adapter state at the moment onPlayTimer reaches this->play():
timer disarmed and the triple flipped to playing. -/
def playTimerFlip (s : PlayerState) : PlayerState :=
  { s with playTimerActive := false, playing := true, paused := false, stopped := false }

/-- C7: a fired stopTimer emits stoppedChanged(true), pausedChanged(false),
playingChanged(false) in that order and only then requests the Null
transition; a fired playTimer emits playingChanged(true),
pausedChanged(false), stoppedChanged(false) in that order and only then
runs play(), whose whole trace contains no change notification. -/
theorem timer_notifications_precede_transition (emf : Emf) (s : PlayerState) :
    (onStopTimer s).2.map Prod.fst =
      [Event.stoppedChanged true, Event.pausedChanged false, Event.playingChanged false] ++
        (if s.pipeline.isSome then [Event.setState GstState.null] else []) ∧
    (onPlayTimer emf s).2.map Prod.fst =
      [Event.playingChanged true, Event.pausedChanged false, Event.stoppedChanged false] ++
        ((play emf (playTimerFlip s)).2.1.map Prod.fst) ∧
    ((play emf (playTimerFlip s)).2.1.all (fun em => !em.1.isNotification)) = true := by
  refine ⟨?_, ?_, ?_⟩
  · rcases hpipe : s.pipeline with _ | p <;> simp [onStopTimer, stop, hpipe]
  · simp [onPlayTimer, playTimerFlip]
  · exact List.all_eq_true.2 fun em hm => by
      simp [play_no_notification emf _ em hm]

/-- C8 counterexample: with a live pipeline (liveState holds pipeline 0
and sink 1), setVideoSink(2) does take effect: the stored sink changes
to 2, so the call is not the no-op the claim describes. -/
theorem setVideoSink_overwrites_while_live :
    liveState.pipeline.isSome = true ∧
    (setVideoSink 2 liveState).1.videoSink = some 2 ∧
    (setVideoSink 2 liveState).1.videoSink ≠ liveState.videoSink := by
  refine ⟨rfl, rfl, ?_⟩
  decide

/-- C8 amended: setVideoSink always stores the supplied reference, also
while a pipeline is live; every other field is unchanged and nothing is
emitted. -/
theorem setVideoSink_stores_only (sink : Nat) (s : PlayerState) :
    (setVideoSink sink s).1.videoSink = some sink ∧
    (setVideoSink sink s).1.playing = s.playing ∧
    (setVideoSink sink s).1.paused = s.paused ∧
    (setVideoSink sink s).1.stopped = s.stopped ∧
    (setVideoSink sink s).1.currentPipelineString = s.currentPipelineString ∧
    (setVideoSink sink s).1.pipelineString = s.pipelineString ∧
    (setVideoSink sink s).1.pipeline = s.pipeline ∧
    (setVideoSink sink s).1.stopTimerActive = s.stopTimerActive ∧
    (setVideoSink sink s).1.playTimerActive = s.playTimerActive ∧
    (setVideoSink sink s).2 = [] :=
  ⟨rfl, rfl, rfl, rfl, rfl, rfl, rfl, rfl, rfl, rfl⟩

/-- C9: sendEOS never changes the adapter state; it posts the
end-of-stream event exactly once when a pipeline is held and posts
nothing otherwise. -/
theorem sendEOS_effects (s : PlayerState) :
    (sendEOS s).1 = s ∧
    (sendEOS s).2.map Prod.fst = (if s.pipeline.isSome then [Event.sendEvent] else []) ∧
    ((sendEOS s).2.map Prod.fst).count Event.sendEvent =
      (if s.pipeline.isSome then 1 else 0) := by
  rcases hpipe : s.pipeline with _ | p <;> simp [sendEOS, hpipe]

/-- C10: a StateChanged message leaves the state untouched and emits
nothing when its new state is Ready or VoidPending, when no pipeline is
held, or when its source is not the held pipeline. -/
theorem irrelevant_stateChanged_is_noop (s : PlayerState) (source : Nat) (st : GstState) :
    ((st = GstState.ready ∨ st = GstState.voidPending) →
      onBusMessage (Message.stateChanged source st) s = (s, [])) ∧
    (s.pipeline = none → onBusMessage (Message.stateChanged source st) s = (s, [])) ∧
    (∀ p, s.pipeline = some p → source ≠ p →
      onBusMessage (Message.stateChanged source st) s = (s, [])) := by
  refine ⟨?_, ?_, ?_⟩
  · intro hst
    rcases hpipe : s.pipeline with _ | p
    · simp [onBusMessage, hpipe]
    · rcases hst with h | h <;> subst h <;>
        simp [onBusMessage, hpipe, handlePipelineStateChange]
  · intro hp
    simp [onBusMessage, hp]
  · intro p hp hne
    simp [onBusMessage, hp, hne]

/-- C10 witness: a Ready transition from the held pipeline, a message
with no pipeline held, and a message from a foreign source are all
silent no-ops. -/
theorem irrelevant_stateChanged_is_noop_witness :
    onBusMessage (Message.stateChanged 0 GstState.ready) liveState = (liveState, []) ∧
    onBusMessage (Message.stateChanged 5 GstState.playing) initState = (initState, []) ∧
    onBusMessage (Message.stateChanged 5 GstState.playing) liveState = (liveState, []) :=
  ⟨(irrelevant_stateChanged_is_noop liveState 0 GstState.ready).1 (Or.inl rfl),
    (irrelevant_stateChanged_is_noop initState 5 GstState.playing).2.1 rfl,
    (irrelevant_stateChanged_is_noop liveState 5 GstState.playing).2.2 0 rfl (by decide)⟩
